import Mathlib

/-!
Shallow embedding of the `managed_etf` repository (src/data_collection.py,
src/driver.py, src/visualizations.py) and proofs about its claimed behaviour.

Modelling conventions:
* Numeric cell values (prices, volumes, coded dates) are rationals `ℚ`;
  `np.log` is kept abstract as a function parameter `log : ℚ → ℚ`, since the
  code only applies it pointwise.  A pandas `NaN` cell is `Option.none`.
* A raised Python exception is the `Except.error` branch of `Except Exc`.
* External I/O (the yfinance download, the polygon HTTP call, `to_csv`) is
  modelled by passing in its observable result/behaviour as data.
* Thread-pool concurrency is modelled by an arbitrary completion order
  (a permutation of the submitted task indices): `max_workers` bounds
  parallelism, so it can influence only which completion orders arise,
  never the value any single task computes.
-/

namespace ManagedEtf

/-- A Python exception value (the code only ever catches broad `Exception`,
so the payload carried here is never inspected). -/
inductive Exc
  | valueError (msg : String)
  | netError
  | ioError
  deriving DecidableEq, Repr

/-! ## data_collection.py -/

/-- A raw pandas DataFrame as produced by `yf.download` (after `reset_index`):
an ordered association list of named numeric columns. -/
structure RawFrame where
  cols : List (String × List ℚ)
  deriving DecidableEq

/-- `df.columns`. -/
def RawFrame.columns (df : RawFrame) : List String := df.cols.map Prod.fst

/-- `df[name]`: the values of column `name` (empty when absent). -/
def RawFrame.getCol (df : RawFrame) (name : String) : List ℚ :=
  match df.cols.find? (fun c => c.fst == name) with
  | some c => c.snd
  | none => []

/-- pandas `df.empty`: the frame has no rows. -/
def RawFrame.isEmpty (df : RawFrame) : Bool := df.cols.all (fun c => c.snd.isEmpty)

/-- A normalized output DataFrame; cells are `Option ℚ` so that the `NaN`
produced by `shift(1)` on the first row is representable as `none`. -/
structure Frame where
  cols : List (String × List (Option ℚ))
  deriving DecidableEq

/-- `f.columns`. -/
def Frame.columns (f : Frame) : List String := f.cols.map Prod.fst

/-- `f[name]`. -/
def Frame.getCol (f : Frame) (name : String) : List (Option ℚ) :=
  match f.cols.find? (fun c => c.fst == name) with
  | some c => c.snd
  | none => []

/-- The observable behaviour of the `yf.download(...)` call: it either
returns a DataFrame (possibly empty) or raises. -/
inductive DownloadResult
  | frame (df : RawFrame)
  | raises (e : Exc)

/-- `expected_columns = ['Date', 'Open', 'High', 'Low', 'Close', 'Volume']`. -/
def expected_columns : List String := ["Date", "Open", "High", "Low", "Close", "Volume"]

/-- `missing_columns = [col for col in expected_columns if col not in data.columns]`. -/
def missing_columns (df : RawFrame) : List String :=
  expected_columns.filter (fun col => !(df.columns.contains col))

/-- `data['Close'].shift(1)`: first cell `NaN` (here `none`), cell `t` holds
cell `t-1` of the input, same length as the input. -/
def shift1 (xs : List ℚ) : List (Option ℚ) :=
  (none :: xs.map some).take xs.length

/-- `np.log(data['Close'] / data['Close'].shift(1))`: elementwise, with `NaN`
(`none`) propagating through the division and the log. -/
def log_returns_col (log : ℚ → ℚ) (closes : List ℚ) : List (Option ℚ) :=
  (closes.zip (shift1 closes)).map (fun p => p.snd.map (fun prev => log (p.fst / prev)))

/-- `data = data[['Date', ..., 'LOG_RETURNS']]; data.columns = ['DATE', ...]`:
the selected, renamed frame returned on the success path. -/
def yahooFrame (log : ℚ → ℚ) (df : RawFrame) : Frame :=
  ⟨[("DATE", (df.getCol ("Date")).map some),
    ("OPEN", (df.getCol ("Open")).map some),
    ("HIGH", (df.getCol ("High")).map some),
    ("LOW", (df.getCol ("Low")).map some),
    ("CLOSE", (df.getCol ("Close")).map some),
    ("VOLUME", (df.getCol ("Volume")).map some),
    ("LOG_RETURNS", log_returns_col log (df.getCol ("Close")))]⟩

/-- `get_yahoo_finance_data`: empty download → `None`; download raised →
caught by the broad `except` → `None`; missing expected columns → the raised
`ValueError` is caught by the same `except` → `None`; otherwise the renamed
frame with the derived `LOG_RETURNS` column. -/
def get_yahoo_finance_data (log : ℚ → ℚ) (dl : DownloadResult) : Option Frame :=
  match dl with
  | .raises _ => none
  | .frame df =>
    if df.isEmpty then none
    else if missing_columns df ≠ [] then none
    else some (yahooFrame log df)

/-- One element of the polygon `results` array (keys `o h l c v t`). -/
structure PolygonBar where
  o : ℚ
  h : ℚ
  l : ℚ
  c : ℚ
  v : ℚ
  t : ℚ
  deriving DecidableEq

/-- The decoded JSON body of the polygon aggregates response. -/
structure PolygonResponse where
  status : String
  results : List PolygonBar
  deriving DecidableEq

/-- The observable behaviour of the polygon HTTP request:
`raises` covers both `raise_for_status` and `RequestException`. -/
inductive HttpResult
  | ok (resp : PolygonResponse)
  | raises (e : Exc)

/-- `get_polygon_data`: on a response with a non-empty `results` array the
bars are renamed (`o→Open`, ...) and the `Timestamp` column becomes the
index (so it is not among the returned columns); every other case is `None`. -/
def get_polygon_data (hr : HttpResult) : Option Frame :=
  match hr with
  | .raises _ => none
  | .ok resp =>
    if resp.results ≠ [] then
      some ⟨[("Open", resp.results.map (fun b => some b.o)),
             ("High", resp.results.map (fun b => some b.h)),
             ("Low", resp.results.map (fun b => some b.l)),
             ("Close", resp.results.map (fun b => some b.c)),
             ("Volume", resp.results.map (fun b => some b.v))]⟩
    else none

/-! ## driver.py -/

abbrev Ticker := String

/-- The `try:` block of `collect_data_for_ticker`, before the `except`:
fetch, and when a frame came back, persist it (`to_csv`) and return `True`;
on `None` return `False`.  Exceptions propagate out of this body. -/
def collectBody (fetch : Except Exc (Option Frame)) (persist : Frame → Except Exc Unit) :
    Except Exc Bool :=
  match fetch with
  | .error e => .error e
  | .ok (some df) =>
    match persist df with
    | .error e => .error e
    | .ok _ => .ok true
  | .ok none => .ok false

/-- `collect_data_for_ticker`: the body wrapped in
`except Exception: return False` (the `finally: time.sleep(...)` has no
modelled effect). -/
def collect_data_for_ticker (fetch : Except Exc (Option Frame))
    (persist : Frame → Except Exc Unit) : Except Exc Bool :=
  match collectBody fetch persist with
  | .ok b => .ok b
  | .error _ => .ok false

/-- The result of the future submitted for one ticker. -/
def taskResult (fetch : Ticker → Except Exc (Option Frame))
    (persist : Ticker → Frame → Except Exc Unit) (t : Ticker) : Except Exc Bool :=
  collect_data_for_ticker (fetch t) (persist t)

/-- The `ThreadPoolExecutor` batch: one future per element of `tickers`
(duplicates included — `executor.submit` returns a fresh future each time,
so each occurrence is its own dictionary key), observed in `as_completed`
order, which is an arbitrary permutation `order` of the task indices.
`maxWorkers` bounds parallelism and therefore influences only which
completion orders can arise, never a task's value. -/
def runBatch (tickers : List Ticker) (fetch : Ticker → Except Exc (Option Frame))
    (persist : Ticker → Frame → Except Exc Unit) (maxWorkers : ℕ)
    (order : List (Fin tickers.length)) : List (Ticker × Except Exc Bool) :=
  order.map (fun i => (tickers.get i, taskResult fetch persist (tickers.get i)))

/-- Whether `future.result()` raised. -/
def isExcOutcome (r : Except Exc Bool) : Bool :=
  match r with
  | .error _ => true
  | .ok _ => false

/-- Whether the task's outcome is `Failed` in the spec's sense
(the task function returned `False`). -/
def isFailedOutcome (r : Except Exc Bool) : Bool :=
  match r with
  | .ok false => true
  | _ => false

/-- The `for future in as_completed(...)` loop: `failed_tickers` receives
exactly the tickers whose `future.result()` raised, in completion order. -/
def failedTickersOf (outcomes : List (Ticker × Except Exc Bool)) : List Ticker :=
  (outcomes.filter (fun p => isExcOutcome p.snd)).map Prod.fst

/-- Tickers of tasks with a `Failed` outcome (returned `False`). -/
def failedOutcomesOf (outcomes : List (Ticker × Except Exc Bool)) : List Ticker :=
  (outcomes.filter (fun p => isFailedOutcome p.snd)).map Prod.fst

/-- `if failed_tickers: f.write("\n".join(failed_tickers))` — the manifest
file content, or `none` when no file is written. -/
def manifestOf (failed : List Ticker) : Option String :=
  if failed.isEmpty then none else some (String.intercalate ("\n") failed)

deriving instance DecidableEq for Except

/-- One whole run of `main`'s collection phase: the collected outcomes and
the manifest file (if any). -/
structure RunResult where
  outcomes : List (Ticker × Except Exc Bool)
  manifest : Option String
  deriving DecidableEq

/-- `main`: run the batch, collect `failed_tickers` from the completed
futures, and write the failures file only when that list is non-empty. -/
def mainRun (tickers : List Ticker) (fetch : Ticker → Except Exc (Option Frame))
    (persist : Ticker → Frame → Except Exc Unit) (maxWorkers : ℕ)
    (order : List (Fin tickers.length)) : RunResult :=
  let outcomes := runBatch tickers fetch persist maxWorkers order
  ⟨outcomes, manifestOf (failedTickersOf outcomes)⟩

/-- The kind of a task outcome as observed by the collector. -/
inductive OutcomeKind
  | persisted
  | failed
  | raised
  deriving DecidableEq, Repr

/-- Classify one future's result. -/
def kindOf (r : Except Exc Bool) : OutcomeKind :=
  match r with
  | .ok true => .persisted
  | .ok false => .failed
  | .error _ => .raised

/-! ## visualizations.py -/

/-- One row of the processed trade ledger.  `calculate_portfolio_value`
reads only the `Entry Date`, `Exit Date` and `P/L ($)` columns, so only
those are carried; dates are coded as integers (their order is all that is
used). -/
structure Trade where
  entryDate : ℤ
  exitDate : ℤ
  pl : ℚ
  deriving DecidableEq

/-- `.sort_values(by='DATE')` on the points list, modelled as a stable sort
on the date key. -/
def sortByDate (pts : List (ℤ × ℚ)) : List (ℤ × ℚ) :=
  List.insertionSort (fun p q => p.fst ≤ q.fst) pts

/-- The `for _, row in df.iterrows():` loop: append one
`(Exit Date, running capital)` point per ledger row. -/
def accumulateRows (capital : ℚ) : List Trade → List (ℤ × ℚ)
  | [] => []
  | row :: rows => (row.exitDate, capital + row.pl) :: accumulateRows (capital + row.pl) rows

/-- `calculate_portfolio_value`: empty ledger → empty frame; otherwise the
initial point `(df['Entry Date'].min(), initial_capital)` followed by the
per-row cumulative points, finally sorted by date. -/
def calculate_portfolio_value (df : List Trade) (initial_capital : ℚ) : List (ℤ × ℚ) :=
  match df with
  | [] => []
  | t0 :: _ =>
    sortByDate (((df.map Trade.entryDate).foldl min t0.entryDate, initial_capital)
      :: accumulateRows initial_capital df)

/-! ## Concrete sample inputs used in witnesses and counterexamples -/

/-- An empty download frame (columns present, zero rows): `data.empty` holds. -/
def emptyRaw : RawFrame :=
  ⟨[("Date", []), ("Open", []), ("High", []), ("Low", []), ("Close", []), ("Volume", [])]⟩

/-- A non-empty download frame missing several expected columns. -/
def mismatchRaw : RawFrame := ⟨[("Date", [1]), ("Open", [1])]⟩

/-- A well-formed one-row download frame. -/
def sampleRaw : RawFrame :=
  ⟨[("Date", [1]), ("Open", [10]), ("High", [12]), ("Low", [9]), ("Close", [11]),
    ("Volume", [1000])]⟩

/-- A well-formed two-row download frame. -/
def sampleRaw2 : RawFrame :=
  ⟨[("Date", [1, 2]), ("Open", [10, 11]), ("High", [12, 13]), ("Low", [9, 10]),
    ("Close", [2, 4]), ("Volume", [1000, 1100])]⟩

/-- A successful polygon response with one bar. -/
def samplePoly : PolygonResponse := ⟨"OK", [⟨1, 2, 3, 4, 5, 6⟩]⟩

/-! ## Task-boundary behaviour (claims about collect_data_for_ticker) -/

/-- The success condition stated by the function's docstring
("Returns True if successful, False if failed"): the fetch produced a frame
and the persistence write succeeded. -/
def taskSucceeds (fetch : Except Exc (Option Frame)) (persist : Frame → Except Exc Unit) :
    Bool :=
  match fetch with
  | .ok (some df) =>
    match persist df with
    | .ok _ => true
    | .error _ => false
  | _ => false

lemma collect_eq_ok (fetch : Except Exc (Option Frame)) (persist : Frame → Except Exc Unit) :
    collect_data_for_ticker fetch persist = Except.ok (taskSucceeds fetch persist) := by
  rcases fetch with e | df?
  · rfl
  · rcases df? with _ | df
    · rfl
    · simp only [collect_data_for_ticker, collectBody, taskSucceeds]
      cases hp : persist df <;> simp [hp]

/-- C9: for every adapter and persistence behaviour — frame returned, `None`
returned, or an exception raised at either step — `collect_data_for_ticker`
returns an ordinary boolean (`True` exactly on persisted success) and never
propagates an exception, so `future.result()` in the orchestrator never
raises for a task failure. -/
theorem collect_never_raises (fetch : Except Exc (Option Frame))
    (persist : Frame → Except Exc Unit) :
    collect_data_for_ticker fetch persist = Except.ok (taskSucceeds fetch persist) :=
  collect_eq_ok fetch persist

/-- C2: any failure raised by the adapter fetch or the persistence write is
caught at the task boundary: the task's result is always an `ok` boolean,
and it is `ok false` (a `Failed` outcome) whenever the task body raised, so
no failure can propagate out and abort the pool or a sibling task. -/
theorem task_failure_isolated (fetch : Except Exc (Option Frame))
    (persist : Frame → Except Exc Unit) :
    (∃ b, collect_data_for_ticker fetch persist = Except.ok b) ∧
    (∀ e, collectBody fetch persist = Except.error e →
      collect_data_for_ticker fetch persist = Except.ok false) := by
  refine ⟨⟨taskSucceeds fetch persist, collect_eq_ok fetch persist⟩, fun e he => ?_⟩
  simp only [collect_data_for_ticker, he]

/-- Witness for C2: a fetch that raises is converted to `ok false`. -/
theorem task_failure_isolated_wit :
    collect_data_for_ticker (Except.error Exc.netError) (fun _ => Except.ok ()) =
      Except.ok false :=
  (task_failure_isolated (Except.error Exc.netError) (fun _ => Except.ok ())).2
    Exc.netError rfl

/-! ## Failure-kind distinguishability (claim C5) -/

/-- C5 counterexample: at concrete inputs, the no-data outcome, the
provider-error outcome and the schema-mismatch outcome of
`get_yahoo_finance_data` are one and the same `none` — the code does not
distinguish the three failure kinds in any way. -/
theorem yahoo_failure_kinds_collapse :
    get_yahoo_finance_data id (DownloadResult.frame emptyRaw) = none ∧
    get_yahoo_finance_data id (DownloadResult.raises Exc.netError) = none ∧
    get_yahoo_finance_data id (DownloadResult.frame mismatchRaw) = none ∧
    get_yahoo_finance_data id (DownloadResult.frame emptyRaw) =
      get_yahoo_finance_data id (DownloadResult.raises Exc.netError) ∧
    get_yahoo_finance_data id (DownloadResult.frame emptyRaw) =
      get_yahoo_finance_data id (DownloadResult.frame mismatchRaw) := by
  refine ⟨?_, ?_, ?_, ?_, ?_⟩ <;> decide

/-- C5 amended: an empty provider result yields the `None` return — a value,
not an exception — but provider errors and schema mismatches also yield
`None`, so the three failure kinds are not distinguishable in the adapter's
return value. -/
theorem yahoo_failures_all_none (log : ℚ → ℚ) (dfe dfm : RawFrame) (e : Exc)
    (hemp : dfe.isEmpty = true) (hne : dfm.isEmpty = false)
    (hmiss : missing_columns dfm ≠ []) :
    get_yahoo_finance_data log (DownloadResult.frame dfe) = none ∧
    get_yahoo_finance_data log (DownloadResult.raises e) = none ∧
    get_yahoo_finance_data log (DownloadResult.frame dfm) = none := by
  refine ⟨?_, rfl, ?_⟩
  · simp [get_yahoo_finance_data, hemp]
  · simp [get_yahoo_finance_data, hne, hmiss]

/-- Witness for the amended C5 at concrete frames. -/
theorem yahoo_failures_all_none_wit :
    get_yahoo_finance_data id (DownloadResult.frame emptyRaw) = none ∧
    get_yahoo_finance_data id (DownloadResult.raises Exc.ioError) = none ∧
    get_yahoo_finance_data id (DownloadResult.frame mismatchRaw) = none :=
  yahoo_failures_all_none id emptyRaw mismatchRaw Exc.ioError (by decide) (by decide)
    (by decide)

/-! ## Adapter schemas (claim C7) -/

/-- C7 counterexample: the yahoo adapter and the polygon adapter do not
return the same column names — yahoo yields the uppercase seven-column
schema with `LOG_RETURNS`, polygon yields five capitalized OHLCV columns
and no log-return column. -/
theorem adapter_schemas_differ :
    (get_yahoo_finance_data id (DownloadResult.frame sampleRaw)).map Frame.columns =
      some ["DATE", "OPEN", "HIGH", "LOW", "CLOSE", "VOLUME", "LOG_RETURNS"] ∧
    (get_polygon_data (HttpResult.ok samplePoly)).map Frame.columns =
      some ["Open", "High", "Low", "Close", "Volume"] ∧
    (get_yahoo_finance_data id (DownloadResult.frame sampleRaw)).map Frame.columns ≠
      (get_polygon_data (HttpResult.ok samplePoly)).map Frame.columns := by
  refine ⟨?_, ?_, ?_⟩ <;> decide

/-- C7 amended: each adapter's schema is fixed — yahoo always returns
`[DATE, OPEN, HIGH, LOW, CLOSE, VOLUME, LOG_RETURNS]` and polygon always
returns `[Open, High, Low, Close, Volume]` — but the two differ, so a
downstream consumer must branch on which source produced the file. -/
theorem adapter_schemas_fixed (log : ℚ → ℚ) (df : RawFrame) (resp : PolygonResponse)
    (hne : df.isEmpty = false) (hmiss : missing_columns df = [])
    (hres : resp.results ≠ []) :
    (get_yahoo_finance_data log (DownloadResult.frame df)).map Frame.columns =
      some ["DATE", "OPEN", "HIGH", "LOW", "CLOSE", "VOLUME", "LOG_RETURNS"] ∧
    (get_polygon_data (HttpResult.ok resp)).map Frame.columns =
      some ["Open", "High", "Low", "Close", "Volume"] := by
  constructor
  · simp [get_yahoo_finance_data, hne, hmiss, yahooFrame, Frame.columns]
  · simp [get_polygon_data, hres, Frame.columns]

/-- Witness for the amended C7 at concrete inputs. -/
theorem adapter_schemas_fixed_wit :
    (get_yahoo_finance_data id (DownloadResult.frame sampleRaw)).map Frame.columns =
      some ["DATE", "OPEN", "HIGH", "LOW", "CLOSE", "VOLUME", "LOG_RETURNS"] ∧
    (get_polygon_data (HttpResult.ok samplePoly)).map Frame.columns =
      some ["Open", "High", "Low", "Close", "Volume"] :=
  adapter_schemas_fixed id sampleRaw samplePoly (by decide) (by decide) (by decide)

/-! ## Worker-pool claims (C1, C8) -/

lemma runBatch_perm (tickers : List Ticker) (fetch : Ticker → Except Exc (Option Frame))
    (persist : Ticker → Frame → Except Exc Unit) (w : ℕ)
    (order : List (Fin tickers.length))
    (h : order.Perm (List.finRange tickers.length)) :
    (runBatch tickers fetch persist w order).Perm
      (tickers.map (fun t => (t, taskResult fetch persist t))) := by
  have key : (List.finRange tickers.length).map
      (fun i => (tickers.get i, taskResult fetch persist (tickers.get i))) =
      tickers.map (fun t => (t, taskResult fetch persist t)) := by
    conv_rhs => rw [← List.finRange_map_get tickers]
    rw [List.map_map]
    rfl
  exact key ▸ h.map (fun i => (tickers.get i, taskResult fetch persist (tickers.get i)))

/-- Occurrence count of one outcome row among the collected outcomes. -/
def countOutcome (outcomes : List (Ticker × Except Exc Bool))
    (x : Ticker × Except Exc Bool) : ℕ :=
  (outcomes.filter (fun p => decide (p = x))).length

/-- Occurrence count of one ticker in the universe. -/
def countTicker (tickers : List Ticker) (x : Ticker) : ℕ :=
  (tickers.filter (fun t => decide (t = x))).length

lemma countOutcome_perm {l₁ l₂ : List (Ticker × Except Exc Bool)} (h : l₁.Perm l₂)
    (x : Ticker × Except Exc Bool) : countOutcome l₁ x = countOutcome l₂ x :=
  (h.filter _).length_eq

lemma countOutcome_map (tickers : List Ticker) (fetch : Ticker → Except Exc (Option Frame))
    (persist : Ticker → Frame → Except Exc Unit) (x : Ticker) :
    countOutcome (tickers.map (fun t => (t, taskResult fetch persist t)))
      (x, taskResult fetch persist x) = countTicker tickers x := by
  unfold countOutcome countTicker
  rw [List.filter_map, List.length_map]
  congr 1
  apply List.filter_congr
  intro t ht
  simp only [Function.comp_apply, decide_eq_decide]
  constructor
  · intro hh
    exact congrArg Prod.fst hh
  · intro hh
    subst hh
    rfl

/-- C1: for every ticker universe and any two worker counts ≥ 1 — hence any
two completion orders the scheduler can produce — the batch yields exactly
one outcome per submitted task (|U| in total, none lost or duplicated), and
the collection of (ticker, outcome-kind) pairs is the same up to
permutation, i.e. as a set with multiplicities it does not depend on the
worker count. -/
theorem batch_outcomes_deterministic (tickers : List Ticker)
    (fetch : Ticker → Except Exc (Option Frame))
    (persist : Ticker → Frame → Except Exc Unit) (w1 w2 : ℕ)
    (hw1 : 1 ≤ w1) (hw2 : 1 ≤ w2) (o1 o2 : List (Fin tickers.length))
    (h1 : o1.Perm (List.finRange tickers.length))
    (h2 : o2.Perm (List.finRange tickers.length)) :
    (runBatch tickers fetch persist w1 o1).length = tickers.length ∧
    ((runBatch tickers fetch persist w1 o1).map (fun p => (p.fst, kindOf p.snd))).Perm
      ((runBatch tickers fetch persist w2 o2).map (fun p => (p.fst, kindOf p.snd))) := by
  constructor
  · simp [runBatch, h1.length_eq]
  · exact ((runBatch_perm tickers fetch persist w1 o1 h1).trans
      (runBatch_perm tickers fetch persist w2 o2 h2).symm).map _

/-- Witness for C1: a two-ticker universe, worker counts 1 and 5, and two
different completion orders. -/
theorem batch_outcomes_deterministic_wit :
    (runBatch ["AAPL", "MSFT"] (fun _ => Except.ok none) (fun _ _ => Except.ok ()) 1
        (List.finRange (List.length (["AAPL", "MSFT"] : List Ticker)))).length = 2 ∧
    ((runBatch ["AAPL", "MSFT"] (fun _ => Except.ok none) (fun _ _ => Except.ok ()) 1
        (List.finRange (List.length (["AAPL", "MSFT"] : List Ticker)))).map
        (fun p => (p.fst, kindOf p.snd))).Perm
      ((runBatch ["AAPL", "MSFT"] (fun _ => Except.ok none) (fun _ _ => Except.ok ()) 5
        [⟨1, by decide⟩, ⟨0, by decide⟩]).map (fun p => (p.fst, kindOf p.snd))) :=
  batch_outcomes_deterministic ["AAPL", "MSFT"] (fun _ => Except.ok none)
    (fun _ _ => Except.ok ()) 1 5 (le_refl 1) (by decide)
    (List.finRange (List.length (["AAPL", "MSFT"] : List Ticker)))
    [⟨1, by decide⟩, ⟨0, by decide⟩] (List.Perm.refl _) (by decide)

/-- C8: when the universe contains the same ticker at two distinct
positions, each occurrence is an independent task: the batch has exactly
one outcome per occurrence, the outcomes are a permutation of the per-task
results over the whole universe, the duplicated ticker's outcome appears
once per occurrence, and no task produces an error. -/
theorem duplicate_tickers_independent (tickers : List Ticker)
    (fetch : Ticker → Except Exc (Option Frame))
    (persist : Ticker → Frame → Except Exc Unit) (w : ℕ) (hw : 1 ≤ w)
    (order : List (Fin tickers.length))
    (h : order.Perm (List.finRange tickers.length))
    (i j : Fin tickers.length) (hij : i ≠ j) (hdup : tickers.get i = tickers.get j) :
    (runBatch tickers fetch persist w order).length = tickers.length ∧
    (runBatch tickers fetch persist w order).Perm
      (tickers.map (fun t => (t, taskResult fetch persist t))) ∧
    countOutcome (runBatch tickers fetch persist w order)
        (tickers.get i, taskResult fetch persist (tickers.get i)) =
      countTicker tickers (tickers.get i) ∧
    (∀ p ∈ runBatch tickers fetch persist w order, ∃ b, p.snd = Except.ok b) := by
  have hperm := runBatch_perm tickers fetch persist w order h
  refine ⟨by simp [runBatch, h.length_eq], hperm, ?_, ?_⟩
  · rw [countOutcome_perm hperm]
    exact countOutcome_map tickers fetch persist (tickers.get i)
  · intro p hp
    simp only [runBatch, List.mem_map] at hp
    obtain ⟨k, _, rfl⟩ := hp
    exact ⟨_, collect_eq_ok _ _⟩

/-- Witness for C8: the ticker `AAPL` occurs twice; both occurrences get
their own recorded outcome. -/
theorem duplicate_tickers_independent_wit :
    (runBatch ["AAPL", "AAPL"] (fun _ => Except.ok none) (fun _ _ => Except.ok ()) 1
        (List.finRange (List.length (["AAPL", "AAPL"] : List Ticker)))).length = 2 ∧
    (runBatch ["AAPL", "AAPL"] (fun _ => Except.ok none) (fun _ _ => Except.ok ()) 1
        (List.finRange (List.length (["AAPL", "AAPL"] : List Ticker)))).Perm
      ((["AAPL", "AAPL"] : List Ticker).map
        (fun t => (t, taskResult (fun _ => Except.ok none) (fun _ _ => Except.ok ()) t))) ∧
    countOutcome (runBatch ["AAPL", "AAPL"] (fun _ => Except.ok none)
        (fun _ _ => Except.ok ()) 1
        (List.finRange (List.length (["AAPL", "AAPL"] : List Ticker))))
        ("AAPL", taskResult (fun _ => Except.ok none) (fun _ _ => Except.ok ()) "AAPL") =
      countTicker ["AAPL", "AAPL"] "AAPL" ∧
    (∀ p ∈ runBatch ["AAPL", "AAPL"] (fun _ => Except.ok none) (fun _ _ => Except.ok ()) 1
        (List.finRange (List.length (["AAPL", "AAPL"] : List Ticker))),
      ∃ b, p.snd = Except.ok b) :=
  duplicate_tickers_independent ["AAPL", "AAPL"] (fun _ => Except.ok none)
    (fun _ _ => Except.ok ()) 1 (le_refl 1)
    (List.finRange (List.length (["AAPL", "AAPL"] : List Ticker))) (List.Perm.refl _)
    ⟨0, by decide⟩ ⟨1, by decide⟩ (by decide) rfl

/-! ## Manifest claims (C3, C4) -/

lemma taskResult_not_exc (fetch : Ticker → Except Exc (Option Frame))
    (persist : Ticker → Frame → Except Exc Unit) (t : Ticker) :
    isExcOutcome (taskResult fetch persist t) = false := by
  rw [taskResult, collect_eq_ok]
  rfl

lemma failedTickers_empty (tickers : List Ticker)
    (fetch : Ticker → Except Exc (Option Frame))
    (persist : Ticker → Frame → Except Exc Unit) (w : ℕ)
    (order : List (Fin tickers.length)) :
    failedTickersOf (runBatch tickers fetch persist w order) = [] := by
  have hnone : ∀ p ∈ runBatch tickers fetch persist w order,
      ¬(isExcOutcome p.snd = true) := by
    intro p hp
    simp only [runBatch, List.mem_map] at hp
    obtain ⟨k, _, rfl⟩ := hp
    simp [taskResult_not_exc]
  simp [failedTickersOf, List.filter_eq_nil_iff.mpr hnone]

lemma mainRun_manifest_none (tickers : List Ticker)
    (fetch : Ticker → Except Exc (Option Frame))
    (persist : Ticker → Frame → Except Exc Unit) (w : ℕ)
    (order : List (Fin tickers.length)) :
    (mainRun tickers fetch persist w order).manifest = none := by
  simp [mainRun, failedTickers_empty, manifestOf]

/-- A fetch behaviour with data only for `AAPL`. -/
def demoFetch : Ticker → Except Exc (Option Frame) :=
  fun t => if t = "AAPL" then Except.ok (some ⟨[]⟩) else Except.ok none

/-- A persistence behaviour that always succeeds. -/
def demoStore : Ticker → Frame → Except Exc Unit := fun _ _ => Except.ok ()

/-- C3 (code defect): `main` appends to `failed_tickers` only when
`future.result()` raises, which never happens because
`collect_data_for_ticker` catches every exception and returns `False`.
So the manifest file is *never* written — in particular not in this
concrete run whose `Failed`-outcome set is the non-empty `["AAPL"]`. -/
theorem manifest_missing_on_failure :
    (∀ (tickers : List Ticker) (fetch : Ticker → Except Exc (Option Frame))
      (persist : Ticker → Frame → Except Exc Unit) (w : ℕ)
      (order : List (Fin tickers.length)),
      (mainRun tickers fetch persist w order).manifest = none) ∧
    failedOutcomesOf (runBatch ["AAPL"] (fun _ => Except.ok none) demoStore 5
      (List.finRange (List.length (["AAPL"] : List Ticker)))) = ["AAPL"] :=
  ⟨fun tickers fetch persist w order => mainRun_manifest_none tickers fetch persist w order,
    by decide⟩

/-- C4 (code defect): in a run where `AAPL` persists and `BADTICKER` fails,
the claim expects a manifest whose content is exactly `BADTICKER`; the code
writes no manifest at all (and the `failed_tickers` list it would have
written is assembled in completion order, not universe order). -/
theorem manifest_never_lists_failed :
    failedOutcomesOf (runBatch ["AAPL", "BADTICKER"] demoFetch demoStore 5
      (List.finRange (List.length (["AAPL", "BADTICKER"] : List Ticker)))) =
      ["BADTICKER"] ∧
    (mainRun ["AAPL", "BADTICKER"] demoFetch demoStore 5
      (List.finRange (List.length (["AAPL", "BADTICKER"] : List Ticker)))).manifest =
      none ∧
    (mainRun ["AAPL", "BADTICKER"] demoFetch demoStore 5
      (List.finRange (List.length (["AAPL", "BADTICKER"] : List Ticker)))).manifest ≠
      some ("BADTICKER") := by
  refine ⟨?_, ?_, ?_⟩ <;> decide

/-! ## Log-return column (claim C6) -/

lemma shift1_zero (xs : List ℚ) (h : 0 < xs.length) : (shift1 xs)[0]? = some none := by
  unfold shift1
  rw [List.getElem?_take_of_lt h]
  simp

lemma shift1_succ (xs : List ℚ) (t : ℕ) (h : t + 1 < xs.length) :
    (shift1 xs)[t + 1]? = some (some (xs.getD t 0)) := by
  have ht : t < xs.length := by omega
  unfold shift1
  rw [List.getElem?_take_of_lt h, List.getElem?_cons]
  simp [List.getElem?_map, List.getElem?_eq_getElem ht,
    List.getD_eq_getElem?_getD, List.getElem?_eq_getElem ht]

lemma log_returns_col_zero (log : ℚ → ℚ) (closes : List ℚ) (h : 0 < closes.length) :
    (log_returns_col log closes)[0]? = some none := by
  unfold log_returns_col
  rw [List.getElem?_map, List.zip_eq_zipWith, List.getElem?_zipWith, shift1_zero closes h,
    List.getElem?_eq_getElem h]
  rfl

lemma log_returns_col_succ (log : ℚ → ℚ) (closes : List ℚ) (t : ℕ)
    (h : t + 1 < closes.length) :
    (log_returns_col log closes)[t + 1]? =
      some (some (log (closes.getD (t + 1) 0 / closes.getD t 0))) := by
  unfold log_returns_col
  rw [List.getElem?_map, List.zip_eq_zipWith, List.getElem?_zipWith, shift1_succ closes t h,
    List.getElem?_eq_getElem h]
  simp [List.getD_eq_getElem?_getD, List.getElem?_eq_getElem h]

lemma yahoo_success_inv (log : ℚ → ℚ) (df : RawFrame) (f : Frame)
    (hf : get_yahoo_finance_data log (DownloadResult.frame df) = some f) :
    f = yahooFrame log df := by
  simp only [get_yahoo_finance_data] at hf
  by_cases h1 : df.isEmpty
  · simp [h1] at hf
  · by_cases h2 : missing_columns df ≠ []
    · simp [h1, h2] at hf
    · simp [h1, h2] at hf
      exact hf.symm

lemma yahooFrame_log_returns_col (log : ℚ → ℚ) (df : RawFrame) :
    (yahooFrame log df).getCol ("LOG_RETURNS") = log_returns_col log (df.getCol ("Close")) :=
  rfl

/-- C6: whenever the yahoo adapter returns a (necessarily non-empty)
normalized record set, its `LOG_RETURNS` column is exactly the log-return
series of the input's `Close` column: null (`none`) on the first row, and
`log(close_t / close_{t-1})` at every row `t > 0`. -/
theorem yahoo_log_returns (log : ℚ → ℚ) (df : RawFrame) (f : Frame)
    (hf : get_yahoo_finance_data log (DownloadResult.frame df) = some f) (t : ℕ)
    (ht : t < (df.getCol ("Close")).length) :
    f.getCol ("LOG_RETURNS") = log_returns_col log (df.getCol ("Close")) ∧
    (f.getCol ("LOG_RETURNS"))[0]? = some none ∧
    (0 < t → (f.getCol ("LOG_RETURNS"))[t]? =
      some (some (log ((df.getCol ("Close")).getD t 0 /
        (df.getCol ("Close")).getD (t - 1) 0)))) := by
  have hfr := yahoo_success_inv log df f hf
  subst hfr
  rw [yahooFrame_log_returns_col]
  refine ⟨rfl, log_returns_col_zero log _ (by omega), fun h0 => ?_⟩
  obtain ⟨s, rfl⟩ : ∃ s, t = s + 1 := ⟨t - 1, by omega⟩
  simpa using log_returns_col_succ log (df.getCol ("Close")) s ht

/-- Witness for C6: closes `[2, 4]` give `LOG_RETURNS = [none, log (4/2)]`
(with `log` instantiated to the identity map). -/
theorem yahoo_log_returns_wit :
    (Frame.getCol (yahooFrame id sampleRaw2) ("LOG_RETURNS")) =
      log_returns_col id (RawFrame.getCol sampleRaw2 ("Close")) ∧
    (Frame.getCol (yahooFrame id sampleRaw2) ("LOG_RETURNS"))[0]? = some none ∧
    (0 < 1 → (Frame.getCol (yahooFrame id sampleRaw2) ("LOG_RETURNS"))[1]? =
      some (some (id ((RawFrame.getCol sampleRaw2 ("Close")).getD 1 0 /
        (RawFrame.getCol sampleRaw2 ("Close")).getD 0 0)))) :=
  yahoo_log_returns id sampleRaw2 (yahooFrame id sampleRaw2) rfl 1 (by decide)

/-! ## Portfolio value (claim C10) -/

/-- `df['Entry Date'].min()` of a non-empty ledger (0 on an empty one,
where the source never evaluates it). -/
def minEntryDate : List Trade → ℤ
  | [] => 0
  | t0 :: rest => ((t0 :: rest).map Trade.entryDate).foldl min t0.entryDate

lemma foldl_min_le (l : List ℤ) (a : ℤ) :
    l.foldl min a ≤ a ∧ ∀ x ∈ l, l.foldl min a ≤ x := by
  induction l generalizing a with
  | nil => simp
  | cons y l ih =>
    refine ⟨le_trans (ih (min a y)).1 (min_le_left a y), ?_⟩
    intro x hx
    rcases List.mem_cons.mp hx with rfl | hx'
    · exact le_trans (ih (min a x)).1 (min_le_right a x)
    · exact (ih (min a y)).2 x hx'

lemma foldl_min_mem (l : List ℤ) (a : ℤ) : l.foldl min a = a ∨ l.foldl min a ∈ l := by
  induction l generalizing a with
  | nil => exact Or.inl rfl
  | cons y l ih =>
    rcases ih (min a y) with h | h
    · rcases le_total a y with hay | hya
      · exact Or.inl (by rw [List.foldl_cons, h, min_eq_left hay])
      · exact Or.inr (by rw [List.foldl_cons, h, min_eq_right hya]; exact List.mem_cons_self y l)
    · exact Or.inr (List.mem_cons_of_mem y h)

lemma minEntryDate_le (df : List Trade) (tr : Trade) (htr : tr ∈ df) :
    minEntryDate df ≤ tr.entryDate := by
  cases df with
  | nil => cases htr
  | cons t0 rest =>
    exact (foldl_min_le _ _).2 _ (List.mem_map_of_mem Trade.entryDate htr)

lemma minEntryDate_mem (t0 : Trade) (rest : List Trade) :
    minEntryDate (t0 :: rest) ∈ (t0 :: rest).map Trade.entryDate := by
  rcases foldl_min_mem ((t0 :: rest).map Trade.entryDate) t0.entryDate with h | h
  · rw [minEntryDate, h]
    exact List.mem_map_of_mem Trade.entryDate (List.mem_cons_self t0 rest)
  · exact h

lemma accumulateRows_map_fst (c : ℚ) (df : List Trade) :
    (accumulateRows c df).map Prod.fst = df.map Trade.exitDate := by
  induction df generalizing c with
  | nil => rfl
  | cons r rs ih => simp [accumulateRows, ih]

lemma accumulateRows_length (c : ℚ) (df : List Trade) :
    (accumulateRows c df).length = df.length := by
  induction df generalizing c with
  | nil => rfl
  | cons r rs ih => simp [accumulateRows, ih]

lemma accumulateRows_getLast (c : ℚ) (r : Trade) (rs : List Trade) :
    ((accumulateRows c (r :: rs)).getLast?).map Prod.snd =
      some (c + ((r :: rs).map Trade.pl).sum) := by
  induction rs generalizing c r with
  | nil => simp [accumulateRows]
  | cons r2 rs2 ih =>
    have step : accumulateRows c (r :: r2 :: rs2) =
        (r.exitDate, c + r.pl) :: accumulateRows (c + r.pl) (r2 :: rs2) := rfl
    have step2 : accumulateRows (c + r.pl) (r2 :: rs2) =
        (r2.exitDate, c + r.pl + r2.pl) :: accumulateRows (c + r.pl + r2.pl) rs2 := rfl
    rw [step, step2, List.getLast?_cons_cons, ← step2, ih]
    simp [add_assoc]

/-- C10 counterexample: with capital 100 and the trades
(entry 0, exit 10, P/L 5) and (entry 1, exit 2, P/L 7) — the second trade
exits before the first — the final sort by date moves the point carrying
the total 112 into the middle, so the last value is 105, not
100 + (5 + 7) = 112. -/
theorem portfolio_last_value_cex :
    calculate_portfolio_value [⟨0, 10, 5⟩, ⟨1, 2, 7⟩] 100 =
      [(0, 100), (2, 112), (10, 105)] ∧
    ((calculate_portfolio_value [⟨0, 10, 5⟩, ⟨1, 2, 7⟩] 100).getLast?).map Prod.snd ≠
      some (100 + (5 + 7)) := by
  have h : calculate_portfolio_value [⟨0, 10, 5⟩, ⟨1, 2, 7⟩] 100 =
      [(0, 100), (2, 112), (10, 105)] := by
    norm_num [calculate_portfolio_value, minEntryDate, accumulateRows, sortByDate,
      List.insertionSort, List.orderedInsert, min_def]
  refine ⟨h, ?_⟩
  rw [h]
  intro hcontra
  have h112 : (105 : ℚ) = 100 + (5 + 7) := by simpa using hcontra
  norm_num at h112

/-- C10 amended: an empty ledger gives an empty series.  For a non-empty
ledger of n trades whose rows each exit no earlier than they enter and
whose exit dates are non-decreasing in row order (true of a
chronologically consistent ledger; without it the final date sort can move
the total away from the last position, as the counterexample shows), the
result has n+1 points, starts with the initial capital at the earliest
entry date, and ends with the initial capital plus the total P/L. -/
theorem portfolio_value_points (c : ℚ) (df : List Trade)
    (hvalid : ∀ tr ∈ df, tr.entryDate ≤ tr.exitDate)
    (hmono : (df.map Trade.exitDate).Pairwise (· ≤ ·)) :
    calculate_portfolio_value [] c = [] ∧
    (df ≠ [] →
      (calculate_portfolio_value df c).length = df.length + 1 ∧
      (calculate_portfolio_value df c).head? = some (minEntryDate df, c) ∧
      minEntryDate df ∈ df.map Trade.entryDate ∧
      (∀ tr ∈ df, minEntryDate df ≤ tr.entryDate) ∧
      ((calculate_portfolio_value df c).getLast?).map Prod.snd =
        some (c + (df.map Trade.pl).sum)) := by
  refine ⟨rfl, fun hne => ?_⟩
  cases df with
  | nil => exact absurd rfl hne
  | cons t0 rest =>
    have hsorted : List.Sorted (fun p q : ℤ × ℚ => p.fst ≤ q.fst)
        ((minEntryDate (t0 :: rest), c) :: accumulateRows c (t0 :: rest)) := by
      rw [List.Sorted, List.pairwise_cons]
      constructor
      · intro p hp
        have hfstmem : p.fst ∈ (accumulateRows c (t0 :: rest)).map Prod.fst :=
          List.mem_map_of_mem Prod.fst hp
        rw [accumulateRows_map_fst] at hfstmem
        obtain ⟨tr, htr, hfst⟩ := List.mem_map.mp hfstmem
        rw [← hfst]
        exact le_trans (minEntryDate_le (t0 :: rest) tr htr) (hvalid tr htr)
      · have hm := hmono
        rw [← accumulateRows_map_fst c] at hm
        exact List.pairwise_map.mp hm
    have hcalc : calculate_portfolio_value (t0 :: rest) c =
        (minEntryDate (t0 :: rest), c) :: accumulateRows c (t0 :: rest) := by
      simp only [calculate_portfolio_value, sortByDate]
      exact hsorted.insertionSort_eq
    rw [hcalc]
    refine ⟨by simp [accumulateRows_length], rfl, minEntryDate_mem t0 rest,
      fun tr htr => minEntryDate_le (t0 :: rest) tr htr, ?_⟩
    have step : accumulateRows c (t0 :: rest) =
        (t0.exitDate, c + t0.pl) :: accumulateRows (c + t0.pl) rest := rfl
    rw [step, List.getLast?_cons_cons, ← step, accumulateRows_getLast]

/-- Witness for the amended C10: two chronologically ordered trades with
capital 100 — three points, first `(0, 100)`, last value `112`. -/
theorem portfolio_value_points_wit :
    (calculate_portfolio_value [⟨0, 5, 5⟩, ⟨2, 6, 7⟩] 100).length =
      (([⟨0, 5, 5⟩, ⟨2, 6, 7⟩] : List Trade)).length + 1 ∧
    (calculate_portfolio_value [⟨0, 5, 5⟩, ⟨2, 6, 7⟩] 100).head? =
      some (minEntryDate [⟨0, 5, 5⟩, ⟨2, 6, 7⟩], 100) ∧
    minEntryDate [⟨0, 5, 5⟩, ⟨2, 6, 7⟩] ∈
      (([⟨0, 5, 5⟩, ⟨2, 6, 7⟩] : List Trade)).map Trade.entryDate ∧
    (∀ tr ∈ ([⟨0, 5, 5⟩, ⟨2, 6, 7⟩] : List Trade),
      minEntryDate [⟨0, 5, 5⟩, ⟨2, 6, 7⟩] ≤ tr.entryDate) ∧
    ((calculate_portfolio_value [⟨0, 5, 5⟩, ⟨2, 6, 7⟩] 100).getLast?).map Prod.snd =
      some (100 + ((([⟨0, 5, 5⟩, ⟨2, 6, 7⟩] : List Trade)).map Trade.pl).sum) :=
  (portfolio_value_points 100 [⟨0, 5, 5⟩, ⟨2, 6, 7⟩] (by decide) (by decide)).2
    (by decide)

end ManagedEtf
